import Mathlib

/-!
Verification of the hh_parser repository (src/main.py): a shallow embedding
of the salary-statistics script and proofs about it.

Modelling conventions:
* Python dictionaries for vacancy records are modelled as structures whose
  fields are `Option`-valued: `none` for a key accessed with `d['k']` means
  the access raises `KeyError`; for a key accessed with `d.get('k')` it means
  the access yields Python `None` (absent key and `null` value coincide).
* Python exceptions are modelled with `Except PyErr`.
* Python numbers: salary bounds are integers (`ℤ`); the scaling factors
  `1.2` and `0.8` and the running average are modelled as exact rationals
  (`ℚ`), with `6/5` and `4/5` for the literals; `//` on integers is floor
  division (`Int.fdiv`), and `int()` truncates toward zero (`pyInt`).
* The network is modelled as a pure response function; within one run the
  same query is assumed to return the same records, so the re-fetch done by
  `get_count_language_vacancies` returns the list already fetched.
* The unbounded pagination loops (`for page in count(0)`) are embedded with
  explicit fuel: `none` means the fuel ran out before the loop decided.
-/

namespace HHParser

/-- Exceptions the embedded Python code can raise. -/
inductive PyErr where
  | keyError
  | nameError
  | httpError
deriving DecidableEq, Repr

/-- Python truthiness of an optional integer: both `None` and `0` are falsy. -/
def intTruthy : Option ℤ → Bool
  | none => false
  | some n => n != 0

/-- Python truthiness of an optional rational: both `None` and `0` are falsy. -/
def ratOptTruthy : Option ℚ → Bool
  | none => false
  | some q => q != 0

/-- predict_salary from src/main.py lines 180-197.  The Python code tests the
bounds with truthiness (`if salary_from and salary_to:`), so a bound equal to
`0` behaves like an absent bound.  `(salary_to - salary_from) // 2 +
salary_from` is floor division; `* 1.2` and `* 0.8` are modelled as the exact
rationals `6/5` and `4/5`. -/
def predict_salary (salary_from salary_to : Option ℤ) : Option ℚ :=
  if intTruthy salary_from && intTruthy salary_to then
    some (((salary_to.getD 0 - salary_from.getD 0).fdiv 2 + salary_from.getD 0 : ℤ) : ℚ)
  else if intTruthy salary_from then
    some ((salary_from.getD 0 : ℚ) * (6 / 5))
  else if intTruthy salary_to then
    some ((salary_to.getD 0 : ℚ) * (4 / 5))
  else
    none

/-- The HeadHunter `salary` sub-dictionary: `currency` is read with
`salary['currency']` (KeyError when absent), the bounds with `salary.get`. -/
structure HHSalary where
  currency : Option String
  fromField : Option ℤ
  toField : Option ℤ
deriving DecidableEq, Repr

/-- A vacancy record (a Python dict).  HeadHunter records use the `salary`
sub-structure; SuperJob records use the flat `currency`, `payment_from`,
`payment_to` keys.  `salary = none` covers both an absent `salary` key and a
`null` value, either of which makes `vacancy['salary']['currency']` raise. -/
structure Vacancy where
  salary : Option HHSalary
  currency : Option String
  payment_from : Option ℤ
  payment_to : Option ℤ
deriving DecidableEq, Repr

/-- predict_rub_salary_hh from src/main.py lines 200-213: `vacancy['salary']`
and `salary['currency']` raise KeyError when absent; currency must be the
string RUR. -/
def predict_rub_salary_hh (vacancy : Vacancy) : Except PyErr (Option ℚ) :=
  match vacancy.salary with
  | none => .error .keyError
  | some salary =>
    match salary.currency with
    | none => .error .keyError
    | some c =>
      if c = "RUR" then .ok (predict_salary salary.fromField salary.toField)
      else .ok none

/-- predict_rub_salary_sj from src/main.py lines 216-229: `vacancy['currency']`
raises KeyError when absent; currency must be the lowercase string rub. -/
def predict_rub_salary_sj (vacancy : Vacancy) : Except PyErr (Option ℚ) :=
  match vacancy.currency with
  | none => .error .keyError
  | some c =>
    if c = "rub" then .ok (predict_salary vacancy.payment_from vacancy.payment_to)
    else .ok none

/-- The local variables of the loop in get_average_salary (lines 251-265).
`predict_rub_salary` is the loop-local Python variable: `none` means the name
is still unbound, so reading it raises NameError. -/
structure AvgState where
  salary : ℚ
  vacancy_count : ℕ
  avarage_salary : ℚ
  predict_rub_salary : Option (Option ℚ)
deriving Repr

/-- State before the loop: `salary = 0`, `vacancy_count = 0`,
`avarage_salary = 0`, `predict_rub_salary` unbound. -/
def avgInit : AvgState := ⟨0, 0, 0, none⟩

/-- The two `if site == ...` assignments at lines 255-258.  The guards are
mutually exclusive, so the sequential Python ifs collapse to this chain; when
neither matches, the previous binding of `predict_rub_salary` is kept. -/
def lookupPredict (site : String) (st : AvgState) (vacancy : Vacancy) :
    Except PyErr (Option (Option ℚ)) :=
  if site = "hh" then (predict_rub_salary_hh vacancy).map some
  else if site = "sj" then (predict_rub_salary_sj vacancy).map some
  else .ok st.predict_rub_salary

/-- The pure tail of one loop iteration of get_average_salary (lines 259-265),
given the value `prsv` just assigned to `predict_rub_salary`: count and
accumulate a truthy estimate (the skip branch only does `avarage_salary += 0`),
then recompute the running average whenever `vacancy_count` is nonzero. -/
def avgUpdate (st : AvgState) (prsv : Option ℚ) : AvgState :=
  let st1 :=
    if ratOptTruthy prsv then
      { st with vacancy_count := st.vacancy_count + 1,
                salary := st.salary + prsv.getD 0,
                predict_rub_salary := some prsv }
    else
      { st with predict_rub_salary := some prsv }
  if st1.vacancy_count ≠ 0 then
    { st1 with avarage_salary := st1.salary / (st1.vacancy_count : ℚ) }
  else st1

/-- One iteration of the loop in get_average_salary (lines 254-265): dispatch
on the site, raise NameError if `predict_rub_salary` is unbound, then apply
the counting/averaging tail. -/
def avgStep (site : String) (st : AvgState) (vacancy : Vacancy) :
    Except PyErr AvgState :=
  match lookupPredict site st vacancy with
  | .error e => .error e
  | .ok none => .error .nameError
  | .ok (some prsv) => .ok (avgUpdate st prsv)

/-- The `for vacancy in all_vacancies` loop of get_average_salary. -/
def avgLoop (site : String) : AvgState → List Vacancy → Except PyErr AvgState
  | st, [] => .ok st
  | st, vacancy :: rest =>
    match avgStep site st vacancy with
    | .error e => .error e
    | .ok st2 => avgLoop site st2 rest

/-- Python `int()`: truncation toward zero. -/
def pyInt (q : ℚ) : ℤ := if q < 0 then ⌈q⌉ else ⌊q⌋

/-- get_average_salary from src/main.py lines 232-266: run the loop from the
initial state and return `(int(avarage_salary), vacancy_count)`. -/
def get_average_salary (all_vacancies : List Vacancy) (site : String) :
    Except PyErr (ℤ × ℕ) :=
  match avgLoop site avgInit all_vacancies with
  | .error e => .error e
  | .ok st => .ok (pyInt st.avarage_salary, st.vacancy_count)

/-- One page of a HeadHunter API response: `ok` is whether
`raise_for_status()` passes (2xx status), `pages` is the `'pages'` field and
`items` the `'items'` field of the JSON body. -/
structure HHPage where
  ok : Bool
  pages : ℕ
  items : List Vacancy

/-- One page of a SuperJob API response: `ok` as above, `objects` is the
`'objects'` field of the JSON body. -/
structure SJPage where
  ok : Bool
  objects : List Vacancy

/-- The `for page in count(0)` loop of get_hh_vacancies (lines 62-78), with
`resp` standing for the HTTP GET of the given page and explicit fuel for the
unbounded iteration (`none` = fuel exhausted before the loop decided).  Per
iteration: `raise_for_status()` aborts on a bad status; then
`if page >= page_payload['pages']: break` returns the accumulator; otherwise
(after the inconsequential `sleep` at page 5) the page's items are appended
and the next page is requested. -/
def get_hh_vacancies_loop (resp : ℕ → HHPage) :
    ℕ → ℕ → List Vacancy → Option (Except PyErr (List Vacancy))
  | 0, _, _ => none
  | fuel + 1, page, vacancies =>
    if (resp page).ok then
      if (resp page).pages ≤ page then some (.ok vacancies)
      else get_hh_vacancies_loop resp fuel (page + 1) (vacancies ++ (resp page).items)
    else some (.error .httpError)

/-- get_hh_vacancies from src/main.py lines 49-79: run the pagination loop
from page 0 with an empty accumulator. -/
def get_hh_vacancies (resp : ℕ → HHPage) (fuel : ℕ) :
    Option (Except PyErr (List Vacancy)) :=
  get_hh_vacancies_loop resp fuel 0 []

/-- The `for page in count(0)` loop of get_sj_vacancies (lines 104-122):
`raise_for_status()` aborts on a bad status; a page with non-empty `objects`
is appended and the loop continues; an empty page returns the accumulator. -/
def get_sj_vacancies_loop (resp : ℕ → SJPage) :
    ℕ → ℕ → List Vacancy → Option (Except PyErr (List Vacancy))
  | 0, _, _ => none
  | fuel + 1, page, vacancies =>
    if (resp page).ok then
      if (resp page).objects = [] then some (.ok vacancies)
      else get_sj_vacancies_loop resp fuel (page + 1) (vacancies ++ (resp page).objects)
    else some (.error .httpError)

/-- get_sj_vacancies from src/main.py lines 82-122: run the pagination loop
from page 0 with an empty accumulator.  The secret key only feeds the request
headers, which `resp` abstracts over. -/
def get_sj_vacancies (resp : ℕ → SJPage) (fuel : ℕ) :
    Option (Except PyErr (List Vacancy)) :=
  get_sj_vacancies_loop resp fuel 0 []

/-- One aggregated row per language, the dictionary built at lines 144-148 and
172-176.  `vacancies_found` holds whatever get_count_language_vacancies
returned (an `Option`, since that function has no branch for unknown sites
and then returns Python `None`). -/
structure LanguageStatistic where
  vacancies_found : Option ℕ
  vacancies_processed : ℕ
  average_salary : ℤ
deriving DecidableEq, Repr

/-- get_count_language_vacancies from src/main.py lines 30-46, with the two
site fetchers abstracted as pure per-language record lists (within one run the
re-fetch returns the same records as the first fetch).  For a site other than
hh and sj the Python function falls through and returns `None`. -/
def get_count_language_vacancies (fetchHH fetchSJ : String → List Vacancy)
    (language site : String) : Option ℕ :=
  if site = "hh" then some (fetchHH language).length
  else if site = "sj" then some (fetchSJ language).length
  else none

/-- The `for language in languages` loop of gather_languages_statistics_hh
(lines 135-149).  The Python dict insertion `language_statistic[language] =
{...}` is modelled as appending to an association list (the program's language
list has no duplicate keys).  Languages whose fetch is empty are skipped. -/
def gather_hh_loop (fetchHH fetchSJ : String → List Vacancy) :
    List (String × LanguageStatistic) → List String →
    Except PyErr (List (String × LanguageStatistic))
  | language_statistic, [] => .ok language_statistic
  | language_statistic, language :: rest =>
    let hh_vacancies := fetchHH language
    if hh_vacancies = [] then gather_hh_loop fetchHH fetchSJ language_statistic rest
    else
      match get_average_salary hh_vacancies "hh" with
      | .error e => .error e
      | .ok (avarage_salary, salary_count) =>
        gather_hh_loop fetchHH fetchSJ
          (language_statistic ++
            [(language,
              { vacancies_found :=
                  get_count_language_vacancies fetchHH fetchSJ language "hh",
                vacancies_processed := salary_count,
                average_salary := avarage_salary })])
          rest

/-- gather_languages_statistics_hh from src/main.py lines 125-149. -/
def gather_languages_statistics_hh (fetchHH fetchSJ : String → List Vacancy)
    (languages : List String) :
    Except PyErr (List (String × LanguageStatistic)) :=
  gather_hh_loop fetchHH fetchSJ [] languages

/-- The `for language in languages` loop of gather_languages_statistics_sj
(lines 162-177); the secret key only feeds the fetcher, which `fetchSJ`
abstracts over. -/
def gather_sj_loop (fetchHH fetchSJ : String → List Vacancy) :
    List (String × LanguageStatistic) → List String →
    Except PyErr (List (String × LanguageStatistic))
  | language_statistic, [] => .ok language_statistic
  | language_statistic, language :: rest =>
    let sj_vacancies := fetchSJ language
    if sj_vacancies = [] then gather_sj_loop fetchHH fetchSJ language_statistic rest
    else
      match get_average_salary sj_vacancies "sj" with
      | .error e => .error e
      | .ok (avarage_salary, salary_count) =>
        gather_sj_loop fetchHH fetchSJ
          (language_statistic ++
            [(language,
              { vacancies_found :=
                  get_count_language_vacancies fetchHH fetchSJ language "sj",
                vacancies_processed := salary_count,
                average_salary := avarage_salary })])
          rest

/-- gather_languages_statistics_sj from src/main.py lines 152-177. -/
def gather_languages_statistics_sj (fetchHH fetchSJ : String → List Vacancy)
    (languages : List String) :
    Except PyErr (List (String × LanguageStatistic)) :=
  gather_sj_loop fetchHH fetchSJ [] languages

/-! ### Concrete records and response functions used as test inputs -/

/-- A HeadHunter vacancy with a rouble salary from 100 to 200. -/
def vacancyRUR : Vacancy :=
  ⟨some ⟨some "RUR", some 100, some 200⟩, none, none, none⟩

/-- A SuperJob vacancy with a rouble salary from 100 to 200. -/
def vacancyRub : Vacancy := ⟨none, some "rub", some 100, some 200⟩

/-- A HeadHunter vacancy whose salary is quoted in dollars. -/
def vacancyUSD : Vacancy :=
  ⟨some ⟨some "USD", some 100, some 200⟩, none, none, none⟩

/-- A SuperJob vacancy whose salary is quoted in euro. -/
def vacancyEur : Vacancy := ⟨none, some "eur", some 100, some 200⟩

/-- A HeadHunter vacancy with a rouble salary but neither bound given. -/
def vacancyNoBounds : Vacancy := ⟨some ⟨some "RUR", none, none⟩, none, none, none⟩

/-- A SuperJob vacancy with a rouble salary but neither bound given. -/
def vacancyNoBoundsSJ : Vacancy := ⟨none, some "rub", none, none⟩

/-- An empty record: no `salary` sub-structure and no `currency` key. -/
def vacancyEmpty : Vacancy := ⟨none, none, none, none⟩

/-- A fetcher returning one HH rouble vacancy for every language. -/
def fetchOneHH : String → List Vacancy := fun _ => [vacancyRUR]

/-- A fetcher returning one SJ rouble vacancy for every language. -/
def fetchOneSJ : String → List Vacancy := fun _ => [vacancyRub]

/-- A fetcher returning no records for any language. -/
def fetchNone : String → List Vacancy := fun _ => []

/-- A fetcher returning one dollar-priced HH vacancy for every language. -/
def fetchOneUSD : String → List Vacancy := fun _ => [vacancyUSD]

/-- A fetcher returning one euro-priced SJ vacancy for every language. -/
def fetchOneEur : String → List Vacancy := fun _ => [vacancyEur]

/-- A HeadHunter API that always answers ok, reports 2 pages and returns one
record per page. -/
def hhRespTwo : ℕ → HHPage := fun _ => ⟨true, 2, [vacancyRUR]⟩

/-- A SuperJob API that answers two nonempty pages and then an empty one. -/
def sjRespTwo : ℕ → SJPage :=
  fun p => if p < 2 then ⟨true, [vacancyRub]⟩ else ⟨true, []⟩

/-- A HeadHunter API whose page 0 is fine and whose page 1 fails. -/
def hhRespBad : ℕ → HHPage :=
  fun p => if p = 0 then ⟨true, 5, [vacancyRUR]⟩ else ⟨false, 5, []⟩

/-- A SuperJob API whose page 0 is fine and whose page 1 fails. -/
def sjRespBad : ℕ → SJPage :=
  fun p => if p = 0 then ⟨true, [vacancyRub]⟩ else ⟨false, []⟩

/-! ### Invariants of the aggregation loop -/

/-- The arithmetic content of an `AvgState`: everything except the loop-local
variable `predict_rub_salary`, which no later computation observes once the
site tag is hh or sj. -/
def proj (st : AvgState) : ℚ × ℕ × ℚ :=
  (st.salary, st.vacancy_count, st.avarage_salary)

/-- Loop invariant of get_average_salary: the running average is `0` while no
vacancy has been counted, and equals `salary / vacancy_count` afterwards. -/
def avgInv (st : AvgState) : Prop :=
  (st.vacancy_count = 0 → st.avarage_salary = 0) ∧
  (st.vacancy_count ≠ 0 → st.avarage_salary = st.salary / (st.vacancy_count : ℚ))

theorem avgInit_inv : avgInv avgInit :=
  ⟨fun _ => rfl, fun h => absurd rfl h⟩

theorem avgUpdate_inv {st : AvgState} {prsv : Option ℚ} (hi : avgInv st) :
    avgInv (avgUpdate st prsv) := by
  unfold avgUpdate
  by_cases ht : ratOptTruthy prsv <;>
    simp only [ht, if_true, if_false, Bool.false_eq_true] <;>
    split <;>
    rename_i hc
  · exact ⟨fun h => absurd h hc, fun _ => rfl⟩
  · simp at hc
  · exact ⟨fun h => absurd h hc, fun _ => rfl⟩
  · simp only [ne_eq, not_not] at hc
    exact ⟨fun _ => hi.1 hc, fun h => absurd hc h⟩

theorem avgUpdate_count (st : AvgState) (prsv : Option ℚ) :
    (avgUpdate st prsv).vacancy_count ≤ st.vacancy_count + 1 := by
  unfold avgUpdate
  by_cases ht : ratOptTruthy prsv <;>
    simp only [ht, if_true, if_false, Bool.false_eq_true] <;>
    split <;> simp

/-- Characterisation of a successful `avgStep`. -/
theorem avgStep_ok {site : String} {st st2 : AvgState} {v : Vacancy}
    (h : avgStep site st v = .ok st2) :
    ∃ prsv, lookupPredict site st v = .ok (some prsv) ∧ st2 = avgUpdate st prsv := by
  unfold avgStep at h
  cases hl : lookupPredict site st v with
  | error e => rw [hl] at h; cases h
  | ok prs =>
    rw [hl] at h
    cases prs with
    | none => cases h
    | some prsv => exact ⟨prsv, rfl, (Except.ok.injEq _ _ ▸ h).symm⟩

theorem avgLoop_inv {site : String} : ∀ (l : List Vacancy) {st st2 : AvgState},
    avgLoop site st l = .ok st2 → avgInv st → avgInv st2
  | [], st, st2, h, hi => by
    unfold avgLoop at h
    cases h
    exact hi
  | v :: rest, st, st2, h, hi => by
    unfold avgLoop at h
    cases hs : avgStep site st v with
    | error e => rw [hs] at h; cases h
    | ok st1 =>
      rw [hs] at h
      obtain ⟨prsv, -, hup⟩ := avgStep_ok hs
      exact avgLoop_inv rest h (hup ▸ avgUpdate_inv hi)

theorem avgLoop_count {site : String} : ∀ (l : List Vacancy) {st st2 : AvgState},
    avgLoop site st l = .ok st2 →
    st2.vacancy_count ≤ st.vacancy_count + l.length
  | [], st, st2, h => by
    unfold avgLoop at h
    cases h
    simp
  | v :: rest, st, st2, h => by
    unfold avgLoop at h
    cases hs : avgStep site st v with
    | error e => rw [hs] at h; cases h
    | ok st1 =>
      rw [hs] at h
      obtain ⟨prsv, -, hup⟩ := avgStep_ok hs
      have h1 : st1.vacancy_count ≤ st.vacancy_count + 1 :=
        hup ▸ avgUpdate_count st prsv
      have h2 := avgLoop_count rest h
      simp only [List.length_cons]
      omega

theorem get_average_salary_count_le {l : List Vacancy} {site : String}
    {avg : ℤ} {cnt : ℕ} (h : get_average_salary l site = .ok (avg, cnt)) :
    cnt ≤ l.length := by
  unfold get_average_salary at h
  cases hl : avgLoop site avgInit l with
  | error e => rw [hl] at h; cases h
  | ok st =>
    rw [hl] at h
    cases h
    simpa [avgInit] using avgLoop_count l hl

theorem proj_eq_iff {s t : AvgState} : proj s = proj t ↔
    s.salary = t.salary ∧ s.vacancy_count = t.vacancy_count ∧
    s.avarage_salary = t.avarage_salary := by
  simp [proj, Prod.ext_iff]

theorem lookupPredict_hh (st : AvgState) (v : Vacancy) :
    lookupPredict "hh" st v = (predict_rub_salary_hh v).map some := by
  simp [lookupPredict]

theorem lookupPredict_sj (st : AvgState) (v : Vacancy) :
    lookupPredict "sj" st v = (predict_rub_salary_sj v).map some := by
  simp [lookupPredict]

/-- For the two real site tags the dispatch never reads the previous value of
the loop variable. -/
theorem lookupPredict_state_irrel {site : String}
    (hsite : site = "hh" ∨ site = "sj") (s t : AvgState) (v : Vacancy) :
    lookupPredict site s v = lookupPredict site t v := by
  rcases hsite with h | h <;> subst h <;> simp [lookupPredict]

theorem avgUpdate_proj {s t : AvgState} (prsv : Option ℚ) (h : proj s = proj t) :
    proj (avgUpdate s prsv) = proj (avgUpdate t prsv) := by
  rw [proj_eq_iff] at h
  obtain ⟨h1, h2, h3⟩ := h
  simp only [avgUpdate, proj, h1, h2, h3]

/-- A non-truthy predictor result leaves the arithmetic content of the state
unchanged: the count and sum are untouched and the recomputed average equals
the value the invariant already guarantees. -/
theorem avgUpdate_skip_proj {st : AvgState} {prsv : Option ℚ}
    (ht : ratOptTruthy prsv = false) (hi : avgInv st) :
    proj (avgUpdate st prsv) = proj st := by
  unfold avgUpdate
  simp only [ht, Bool.false_eq_true, if_false]
  split
  · rename_i hc
    rw [proj_eq_iff]
    exact ⟨rfl, rfl, (hi.2 (by simpa using hc)).symm⟩
  · rw [proj_eq_iff]
    exact ⟨rfl, rfl, rfl⟩

theorem avgStep_proj {site : String} (hsite : site = "hh" ∨ site = "sj")
    {s t : AvgState} (v : Vacancy) (h : proj s = proj t) :
    (avgStep site s v).map proj = (avgStep site t v).map proj := by
  unfold avgStep
  rw [lookupPredict_state_irrel hsite s t v]
  cases lookupPredict site t v with
  | error e => rfl
  | ok prs =>
    cases prs with
    | none => rfl
    | some prsv => simp [Except.map, avgUpdate_proj prsv h]

theorem avgLoop_proj {site : String} (hsite : site = "hh" ∨ site = "sj") :
    ∀ (l : List Vacancy) {s t : AvgState}, proj s = proj t →
    (avgLoop site s l).map proj = (avgLoop site t l).map proj
  | [], s, t, h => by simp [avgLoop, Except.map, h]
  | v :: rest, s, t, h => by
    unfold avgLoop
    have hstep := avgStep_proj hsite v h
    cases hs : avgStep site s v with
    | error e =>
      cases hst : avgStep site t v with
      | error e2 =>
        rw [hs, hst] at hstep
        simp only [Except.map] at hstep
        cases hstep
        rfl
      | ok t1 =>
        rw [hs, hst] at hstep
        simp [Except.map] at hstep
    | ok s1 =>
      cases hst : avgStep site t v with
      | error e2 =>
        rw [hs, hst] at hstep
        simp [Except.map] at hstep
      | ok t1 =>
        rw [hs, hst] at hstep
        simp only [Except.map, Except.ok.injEq] at hstep
        exact avgLoop_proj hsite rest hstep

theorem avgLoop_nil {site : String} {st : AvgState} :
    avgLoop site st [] = .ok st := rfl

theorem avgLoop_cons {site : String} {st : AvgState} {v : Vacancy}
    {rest : List Vacancy} :
    avgLoop site st (v :: rest) =
      match avgStep site st v with
      | .error e => .error e
      | .ok st2 => avgLoop site st2 rest := rfl

theorem avgLoop_append_ok {site : String} :
    ∀ {l1 : List Vacancy} (l2 : List Vacancy) {st st1 : AvgState},
    avgLoop site st l1 = .ok st1 →
    avgLoop site st (l1 ++ l2) = avgLoop site st1 l2
  | [], l2, st, st1, h => by
    rw [avgLoop_nil] at h
    cases h
    rfl
  | v :: rest, l2, st, st1, h => by
    rw [List.cons_append, avgLoop_cons]
    rw [avgLoop_cons] at h
    cases hs : avgStep site st v with
    | error e => rw [hs] at h; cases h
    | ok st2 =>
      rw [hs] at h
      exact avgLoop_append_ok l2 h

theorem avgLoop_append_error {site : String} :
    ∀ {l1 : List Vacancy} (l2 : List Vacancy) {st : AvgState} {e : PyErr},
    avgLoop site st l1 = .error e →
    avgLoop site st (l1 ++ l2) = .error e
  | [], l2, st, e, h => by rw [avgLoop_nil] at h; cases h
  | v :: rest, l2, st, e, h => by
    rw [List.cons_append, avgLoop_cons]
    rw [avgLoop_cons] at h
    cases hs : avgStep site st v with
    | error e2 => rw [hs] at h; exact h
    | ok st2 =>
      rw [hs] at h
      exact avgLoop_append_error l2 h

/-- The output of get_average_salary only depends on the arithmetic content
of the final loop state. -/
theorem get_avg_congr {site : String} {l1 l2 : List Vacancy}
    (h : (avgLoop site avgInit l1).map proj = (avgLoop site avgInit l2).map proj) :
    get_average_salary l1 site = get_average_salary l2 site := by
  unfold get_average_salary
  cases ha : avgLoop site avgInit l1 with
  | error e =>
    cases hb : avgLoop site avgInit l2 with
    | error e2 =>
      rw [ha, hb] at h
      simp only [Except.map] at h
      cases h
      rfl
    | ok w =>
      rw [ha, hb] at h
      simp [Except.map] at h
  | ok u =>
    cases hb : avgLoop site avgInit l2 with
    | error e2 =>
      rw [ha, hb] at h
      simp [Except.map] at h
    | ok w =>
      rw [ha, hb] at h
      simp only [Except.map, Except.ok.injEq] at h
      rw [proj_eq_iff] at h
      obtain ⟨-, h2, h3⟩ := h
      show Except.ok (pyInt u.avarage_salary, u.vacancy_count) =
        Except.ok (pyInt w.avarage_salary, w.vacancy_count)
      rw [h2, h3]

/-- Inserting a vacancy on which the site's predictor yields a non-truthy
result (Python `None` or `0`) anywhere in the list does not change the result
of get_average_salary. -/
theorem avg_skip {site : String} (hsite : site = "hh" ∨ site = "sj")
    {v : Vacancy} {r : Option ℚ}
    (hlp : ∀ st, lookupPredict site st v = .ok (some r))
    (ht : ratOptTruthy r = false) (l1 l2 : List Vacancy) :
    get_average_salary (l1 ++ v :: l2) site = get_average_salary (l1 ++ l2) site := by
  apply get_avg_congr
  cases h1 : avgLoop site avgInit l1 with
  | error e =>
    rw [avgLoop_append_error _ h1, avgLoop_append_error _ h1]
  | ok st0 =>
    rw [avgLoop_append_ok _ h1, avgLoop_append_ok _ h1]
    have hinv : avgInv st0 := avgLoop_inv l1 h1 avgInit_inv
    have hstep : avgStep site st0 v = .ok (avgUpdate st0 r) := by
      unfold avgStep
      rw [hlp st0]
    rw [avgLoop_cons, hstep]
    exact avgLoop_proj hsite l2 (avgUpdate_skip_proj ht hinv)

/-! ### Pagination lemmas -/

theorem hh_loop_succ {resp : ℕ → HHPage} {fuel page : ℕ} {vacancies : List Vacancy} :
    get_hh_vacancies_loop resp (fuel + 1) page vacancies =
      if (resp page).ok then
        if (resp page).pages ≤ page then some (.ok vacancies)
        else get_hh_vacancies_loop resp fuel (page + 1) (vacancies ++ (resp page).items)
      else some (.error .httpError) := rfl

theorem sj_loop_succ {resp : ℕ → SJPage} {fuel page : ℕ} {vacancies : List Vacancy} :
    get_sj_vacancies_loop resp (fuel + 1) page vacancies =
      if (resp page).ok then
        if (resp page).objects = [] then some (.ok vacancies)
        else get_sj_vacancies_loop resp fuel (page + 1) (vacancies ++ (resp page).objects)
      else some (.error .httpError) := rfl

/-- When every page up to `N` answers with status ok and reports `N` total
pages, the HH loop started at `page ≤ N` with enough fuel terminates with the
accumulator extended by the items of pages `page, …, N - 1` in order. -/
theorem hh_loop_ok (resp : ℕ → HHPage) (N : ℕ)
    (hresp : ∀ p, p ≤ N → (resp p).ok = true ∧ (resp p).pages = N) :
    ∀ (fuel page : ℕ) (acc : List Vacancy), page ≤ N → N + 1 - page ≤ fuel →
    get_hh_vacancies_loop resp fuel page acc =
      some (.ok (acc ++
        ((List.range' page (N - page)).map fun p => (resp p).items).flatten)) := by
  intro fuel
  induction fuel with
  | zero =>
    intro page acc hp hf
    omega
  | succ fuel ih =>
    intro page acc hp hf
    obtain ⟨hok, hpg⟩ := hresp page hp
    rw [hh_loop_succ, hok, if_pos rfl, hpg]
    by_cases hpN : N ≤ page
    · have hEq : page = N := le_antisymm hp hpN
      subst hEq
      rw [if_pos hpN]
      simp
    · rw [if_neg hpN]
      rw [ih (page + 1) (acc ++ (resp page).items) (by omega) (by omega)]
      have hspan : N - page = (N - (page + 1)) + 1 := by omega
      rw [hspan, List.range'_succ, List.map_cons, List.flatten_cons,
        List.append_assoc]

/-- When pages `0, …, N - 1` answer ok with nonempty `objects` and page `N`
answers ok with empty `objects`, the SJ loop started at `page ≤ N` with enough
fuel terminates with the accumulator extended by the objects of pages
`page, …, N - 1` in order. -/
theorem sj_loop_ok (resp : ℕ → SJPage) (N : ℕ)
    (hresp : ∀ p, p < N → (resp p).ok = true ∧ (resp p).objects ≠ [])
    (hNok : (resp N).ok = true) (hNempty : (resp N).objects = []) :
    ∀ (fuel page : ℕ) (acc : List Vacancy), page ≤ N → N + 1 - page ≤ fuel →
    get_sj_vacancies_loop resp fuel page acc =
      some (.ok (acc ++
        ((List.range' page (N - page)).map fun p => (resp p).objects).flatten)) := by
  intro fuel
  induction fuel with
  | zero =>
    intro page acc hp hf
    omega
  | succ fuel ih =>
    intro page acc hp hf
    by_cases hpN : page = N
    · subst hpN
      rw [sj_loop_succ, hNok, if_pos rfl, if_pos hNempty]
      simp
    · obtain ⟨hok, hne⟩ := hresp page (by omega)
      rw [sj_loop_succ, hok, if_pos rfl, if_neg hne]
      rw [ih (page + 1) (acc ++ (resp page).objects) (by omega) (by omega)]
      have hspan : N - page = (N - (page + 1)) + 1 := by omega
      rw [hspan, List.range'_succ, List.map_cons, List.flatten_cons,
        List.append_assoc]

/-- When pages before `k` answer ok and keep the HH loop going (they report
more pages than the current index) and page `k` answers with a bad status,
the loop aborts with an HTTP error and no records. -/
theorem hh_loop_err (resp : ℕ → HHPage) (k : ℕ)
    (hresp : ∀ p, p < k → (resp p).ok = true ∧ p < (resp p).pages)
    (hbad : (resp k).ok = false) :
    ∀ (fuel page : ℕ) (acc : List Vacancy), page ≤ k → k + 1 - page ≤ fuel →
    get_hh_vacancies_loop resp fuel page acc = some (.error .httpError) := by
  intro fuel
  induction fuel with
  | zero =>
    intro page acc hp hf
    omega
  | succ fuel ih =>
    intro page acc hp hf
    by_cases hpk : page = k
    · subst hpk
      rw [hh_loop_succ, hbad]
      simp
    · obtain ⟨hok, hpg⟩ := hresp page (by omega)
      rw [hh_loop_succ, hok, if_pos rfl, if_neg (by omega)]
      exact ih (page + 1) (acc ++ (resp page).items) (by omega) (by omega)

/-- When pages before `k` answer ok with nonempty `objects` and page `k`
answers with a bad status, the SJ loop aborts with an HTTP error and no
records. -/
theorem sj_loop_err (resp : ℕ → SJPage) (k : ℕ)
    (hresp : ∀ p, p < k → (resp p).ok = true ∧ (resp p).objects ≠ [])
    (hbad : (resp k).ok = false) :
    ∀ (fuel page : ℕ) (acc : List Vacancy), page ≤ k → k + 1 - page ≤ fuel →
    get_sj_vacancies_loop resp fuel page acc = some (.error .httpError) := by
  intro fuel
  induction fuel with
  | zero =>
    intro page acc hp hf
    omega
  | succ fuel ih =>
    intro page acc hp hf
    by_cases hpk : page = k
    · subst hpk
      rw [sj_loop_succ, hbad]
      simp
    · obtain ⟨hok, hne⟩ := hresp page (by omega)
      rw [sj_loop_succ, hok, if_pos rfl, if_neg hne]
      exact ih (page + 1) (acc ++ (resp page).objects) (by omega) (by omega)

/-! ### Gathering lemmas -/

theorem get_count_hh (fetchHH fetchSJ : String → List Vacancy) (language : String) :
    get_count_language_vacancies fetchHH fetchSJ language "hh" =
      some (fetchHH language).length := by
  simp [get_count_language_vacancies]

theorem get_count_sj (fetchHH fetchSJ : String → List Vacancy) (language : String) :
    get_count_language_vacancies fetchHH fetchSJ language "sj" =
      some (fetchSJ language).length := by
  simp [get_count_language_vacancies]

theorem gather_hh_loop_cons {fetchHH fetchSJ : String → List Vacancy}
    {acc : List (String × LanguageStatistic)} {language : String}
    {rest : List String} :
    gather_hh_loop fetchHH fetchSJ acc (language :: rest) =
      if fetchHH language = [] then gather_hh_loop fetchHH fetchSJ acc rest
      else
        match get_average_salary (fetchHH language) "hh" with
        | .error e => .error e
        | .ok (avarage_salary, salary_count) =>
          gather_hh_loop fetchHH fetchSJ
            (acc ++ [(language,
              { vacancies_found :=
                  get_count_language_vacancies fetchHH fetchSJ language "hh",
                vacancies_processed := salary_count,
                average_salary := avarage_salary })]) rest := rfl

theorem gather_sj_loop_cons {fetchHH fetchSJ : String → List Vacancy}
    {acc : List (String × LanguageStatistic)} {language : String}
    {rest : List String} :
    gather_sj_loop fetchHH fetchSJ acc (language :: rest) =
      if fetchSJ language = [] then gather_sj_loop fetchHH fetchSJ acc rest
      else
        match get_average_salary (fetchSJ language) "sj" with
        | .error e => .error e
        | .ok (avarage_salary, salary_count) =>
          gather_sj_loop fetchHH fetchSJ
            (acc ++ [(language,
              { vacancies_found :=
                  get_count_language_vacancies fetchHH fetchSJ language "sj",
                vacancies_processed := salary_count,
                average_salary := avarage_salary })]) rest := rfl

/-- Every association produced by the HH gathering loop either was already in
the accumulator or belongs to a language with a nonempty fetch and satisfies
`vacancies_processed ≤ vacancies_found`. -/
theorem gather_hh_loop_mem {fetchHH fetchSJ : String → List Vacancy} :
    ∀ {langs : List String} {acc res : List (String × LanguageStatistic)},
    gather_hh_loop fetchHH fetchSJ acc langs = .ok res →
    ∀ p ∈ res, p ∈ acc ∨
      (fetchHH p.1 ≠ [] ∧ ∃ n, p.2.vacancies_found = some n ∧
        p.2.vacancies_processed ≤ n)
  | [], acc, res, h, p, hp => by
    have h2 : (Except.ok acc : Except PyErr (List (String × LanguageStatistic))) =
      .ok res := h
    cases h2
    exact Or.inl hp
  | language :: rest, acc, res, h, p, hp => by
    rw [gather_hh_loop_cons] at h
    by_cases he : fetchHH language = []
    · rw [if_pos he] at h
      exact gather_hh_loop_mem h p hp
    · rw [if_neg he] at h
      cases havg : get_average_salary (fetchHH language) "hh" with
      | error e => rw [havg] at h; cases h
      | ok pr =>
        obtain ⟨avg, cnt⟩ := pr
        rw [havg] at h
        rcases gather_hh_loop_mem h p hp with hin | hgood
        · rcases List.mem_append.1 hin with hin2 | hin2
          · exact Or.inl hin2
          · right
            rcases List.mem_singleton.1 hin2 with rfl
            refine ⟨he, (fetchHH language).length, ?_, ?_⟩
            · exact get_count_hh fetchHH fetchSJ language
            · exact get_average_salary_count_le havg
        · exact Or.inr hgood

/-- SuperJob analogue of `gather_hh_loop_mem`. -/
theorem gather_sj_loop_mem {fetchHH fetchSJ : String → List Vacancy} :
    ∀ {langs : List String} {acc res : List (String × LanguageStatistic)},
    gather_sj_loop fetchHH fetchSJ acc langs = .ok res →
    ∀ p ∈ res, p ∈ acc ∨
      (fetchSJ p.1 ≠ [] ∧ ∃ n, p.2.vacancies_found = some n ∧
        p.2.vacancies_processed ≤ n)
  | [], acc, res, h, p, hp => by
    have h2 : (Except.ok acc : Except PyErr (List (String × LanguageStatistic))) =
      .ok res := h
    cases h2
    exact Or.inl hp
  | language :: rest, acc, res, h, p, hp => by
    rw [gather_sj_loop_cons] at h
    by_cases he : fetchSJ language = []
    · rw [if_pos he] at h
      exact gather_sj_loop_mem h p hp
    · rw [if_neg he] at h
      cases havg : get_average_salary (fetchSJ language) "sj" with
      | error e => rw [havg] at h; cases h
      | ok pr =>
        obtain ⟨avg, cnt⟩ := pr
        rw [havg] at h
        rcases gather_sj_loop_mem h p hp with hin | hgood
        · rcases List.mem_append.1 hin with hin2 | hin2
          · exact Or.inl hin2
          · right
            rcases List.mem_singleton.1 hin2 with rfl
            refine ⟨he, (fetchSJ language).length, ?_, ?_⟩
            · exact get_count_sj fetchHH fetchSJ language
            · exact get_average_salary_count_le havg
        · exact Or.inr hgood

/-! ### Claim C1 -/

/-- C1 (counterexample): the claim says that for every pair in which both
bounds are present the estimate is the floor midpoint lower +
(upper - lower) / 2.  The code tests the bounds with Python truthiness, so for
the present pair (0, 200) it returns 200 * 0.8 = 160, not the midpoint 100. -/
theorem claim1_counterexample :
    predict_salary (some 0) (some 200) = some 160 ∧
    ((0 : ℤ) + ((200 : ℤ) - 0).fdiv 2 : ℤ) = 100 ∧
    (160 : ℚ) ≠ ((100 : ℤ) : ℚ) := by
  refine ⟨by norm_num [predict_salary, intTruthy], by decide, by norm_num⟩

/-- C1 (amended): predict_salary treats a bound as present only when it is
truthy (non-`None` and nonzero).  When both bounds are truthy it returns the
midpoint lower + (upper - lower) / 2 with integer floor division; when only
the lower bound is truthy it returns lower * 1.2; when only the upper bound is
truthy it returns upper * 0.8; when neither is truthy it returns no estimate.
In particular estimate(100,200) = 150, estimate(100,None) = 120,
estimate(None,200) = 160, estimate(None,None) = None. -/
theorem claim1_theorem :
    (∀ lo hi : ℤ, lo ≠ 0 → hi ≠ 0 →
      predict_salary (some lo) (some hi) =
        some ((lo + (hi - lo).fdiv 2 : ℤ) : ℚ)) ∧
    (∀ (lo : ℤ) (hi : Option ℤ), lo ≠ 0 → intTruthy hi = false →
      predict_salary (some lo) hi = some ((lo : ℚ) * (6 / 5))) ∧
    (∀ (lo : Option ℤ) (hi : ℤ), hi ≠ 0 → intTruthy lo = false →
      predict_salary lo (some hi) = some ((hi : ℚ) * (4 / 5))) ∧
    (∀ lo hi : Option ℤ, intTruthy lo = false → intTruthy hi = false →
      predict_salary lo hi = none) ∧
    predict_salary (some 100) (some 200) = some 150 ∧
    predict_salary (some 100) none = some 120 ∧
    predict_salary none (some 200) = some 160 ∧
    predict_salary none none = none := by
  refine ⟨?_, ?_, ?_, ?_, by decide,
    by norm_num [predict_salary, intTruthy],
    by norm_num [predict_salary, intTruthy], by decide⟩
  · intro lo hi hlo hhi
    simp only [predict_salary, Option.getD_some]
    rw [if_pos (by simp [intTruthy, hlo, hhi]), Int.add_comm lo]
  · intro lo hi hlo hhi
    simp only [predict_salary, Option.getD_some]
    rw [if_neg (by simp [hhi]), if_pos (by simp [intTruthy, hlo])]
  · intro lo hi hhi hlo
    simp only [predict_salary, Option.getD_some]
    rw [if_neg (by simp [hlo]), if_neg (by simp [hlo]),
      if_pos (by simp [intTruthy, hhi])]
  · intro lo hi hlo hhi
    simp only [predict_salary, Option.getD_some]
    rw [if_neg (by simp [hlo, hhi]), if_neg (by simp [hlo]),
      if_neg (by simp [hhi])]

/-- C1 (witness): the amended characterisation applied to the concrete pairs
(3,10), (7,0), (0,9) and (0,0). -/
theorem claim1_witness :
    predict_salary (some 3) (some 10) =
      some (((3 : ℤ) + ((10 : ℤ) - 3).fdiv 2 : ℤ) : ℚ) ∧
    predict_salary (some 7) (some 0) = some ((7 : ℚ) * (6 / 5)) ∧
    predict_salary (some 0) (some 9) = some ((9 : ℚ) * (4 / 5)) ∧
    predict_salary (some 0) (some 0) = none :=
  ⟨claim1_theorem.1 3 10 (by decide) (by decide),
   claim1_theorem.2.1 7 (some 0) (by decide) (by decide),
   claim1_theorem.2.2.1 (some 0) 9 (by decide) (by decide),
   claim1_theorem.2.2.2.1 (some 0) (some 0) (by decide) (by decide)⟩

/-! ### Claim C8 -/

/-- C8 (counterexample): the claim says every produced estimate is an integer
and that the estimate is absent only when no bound is present.  But
predict_salary(1, None) = 1 * 1.2 = 6/5, which is not an integer, and
predict_salary(0, 0) is absent although both bounds are present. -/
theorem claim8_counterexample :
    predict_salary (some 1) none = some (6 / 5 : ℚ) ∧ (6 / 5 : ℚ).den ≠ 1 ∧
    predict_salary (some 0) (some 0) = none := by
  refine ⟨by norm_num [predict_salary, intTruthy], by norm_num, by decide⟩

/-- C8 (amended): the salary estimate is an optional rational number: it is an
integer whenever both bounds are truthy (the floor-midpoint branch), the
single-bound branches scale by 1.2 or 0.8 and need not be integral, and the
estimate is absent exactly when neither bound is truthy. -/
theorem claim8_theorem (salary_from salary_to : Option ℤ) (q : ℚ) :
    (predict_salary salary_from salary_to = some q →
      intTruthy salary_from = true → intTruthy salary_to = true →
      ∃ n : ℤ, q = (n : ℚ)) ∧
    (predict_salary salary_from salary_to = none ↔
      (intTruthy salary_from = false ∧ intTruthy salary_to = false)) := by
  constructor
  · intro hq hf ht
    simp only [predict_salary, hf, ht, Bool.and_self, if_true,
      Option.some.injEq] at hq
    exact ⟨_, hq.symm⟩
  · constructor
    · intro h
      by_cases hf : intTruthy salary_from <;> by_cases ht : intTruthy salary_to <;>
        simp [predict_salary, hf, ht] at h ⊢
    · rintro ⟨hf, ht⟩
      simp [predict_salary, hf, ht]

/-- C8 (witness): at the pair (100, 200) both bounds are truthy, the estimate
150 is produced and it is an integer. -/
theorem claim8_witness :
    predict_salary (some 100) (some 200) = some 150 ∧
    (∃ n : ℤ, (150 : ℚ) = (n : ℚ)) ∧
    (predict_salary (some 0) (some 0) = none ↔
      (intTruthy (some (0 : ℤ)) = false ∧ intTruthy (some (0 : ℤ)) = false)) :=
  ⟨by decide,
   (claim8_theorem (some 100) (some 200) 150).1 (by decide) (by decide) (by decide),
   (claim8_theorem (some 0) (some 0) 150).2⟩

/-! ### Claim C3 -/

/-- C3: whenever get_average_salary returns a processed count of 0, the
returned average salary is 0 (the running average is never assigned when no
vacancy is counted, so it keeps its initial value 0). -/
theorem claim3_theorem (all_vacancies : List Vacancy) (site : String)
    (avg : ℤ) (cnt : ℕ)
    (h : get_average_salary all_vacancies site = .ok (avg, cnt))
    (hc : cnt = 0) : avg = 0 := by
  subst hc
  unfold get_average_salary at h
  cases hl : avgLoop site avgInit all_vacancies with
  | error e => rw [hl] at h; cases h
  | ok st =>
    rw [hl] at h
    have h2 : (Except.ok (pyInt st.avarage_salary, st.vacancy_count) :
      Except PyErr (ℤ × ℕ)) = .ok (avg, 0) := h
    injection h2 with h3
    injection h3 with havg hcnt
    have hinv := avgLoop_inv all_vacancies hl avgInit_inv
    rw [← havg, hinv.1 hcnt]
    norm_num [pyInt]

/-- C3 (witness): a list holding one dollar-priced vacancy processes 0
records and reports average 0. -/
theorem claim3_witness :
    get_average_salary [vacancyUSD] "hh" = .ok (0, 0) ∧ (0 : ℤ) = 0 :=
  ⟨rfl, claim3_theorem [vacancyUSD] "hh" 0 0 rfl rfl⟩

/-! ### Claim C10 -/

/-- C10: get_average_salary only terminates normally for the site tags hh and
sj; for any other tag and a non-empty record list the loop body reads the
never-assigned variable `predict_rub_salary` on the first record and raises
NameError. -/
theorem claim10_theorem (site : String) (hhh : site ≠ "hh") (hsj : site ≠ "sj")
    (v : Vacancy) (l : List Vacancy) :
    get_average_salary (v :: l) site = .error .nameError := by
  have hstep : avgStep site avgInit v = .error .nameError := by
    unfold avgStep lookupPredict
    rw [if_neg hhh, if_neg hsj]
    rfl
  unfold get_average_salary
  rw [avgLoop_cons, hstep]

/-- C10 (witness): the site tag xx fails on a one-record list with a
NameError. -/
theorem claim10_witness :
    ("xx" : String) ≠ "hh" ∧ ("xx" : String) ≠ "sj" ∧
    get_average_salary [vacancyRUR] "xx" = .error .nameError :=
  ⟨by decide, by decide, claim10_theorem "xx" (by decide) (by decide) vacancyRUR []⟩

/-! ### Claim C2 -/

/-- C2: the processed count never exceeds the found count.  For every record
list, get_average_salary returns a processed count of at most the list's
length; and every LanguageStatistic built by the two gatherers carries a found
count (the re-fetched record count, which in the deterministic network model
equals the length of the aggregated list) that bounds its processed count. -/
theorem claim2_theorem (fetchHH fetchSJ : String → List Vacancy)
    (languages : List String) (all_vacancies : List Vacancy) (site : String)
    (res : List (String × LanguageStatistic))
    (entry : String × LanguageStatistic) (avg : ℤ) (cnt : ℕ) :
    (get_average_salary all_vacancies site = .ok (avg, cnt) →
      cnt ≤ all_vacancies.length) ∧
    (gather_languages_statistics_hh fetchHH fetchSJ languages = .ok res →
      entry ∈ res → ∃ n, entry.2.vacancies_found = some n ∧
        entry.2.vacancies_processed ≤ n) ∧
    (gather_languages_statistics_sj fetchHH fetchSJ languages = .ok res →
      entry ∈ res → ∃ n, entry.2.vacancies_found = some n ∧
        entry.2.vacancies_processed ≤ n) := by
  refine ⟨fun h => get_average_salary_count_le h, ?_, ?_⟩
  · intro h hm
    rcases gather_hh_loop_mem h entry hm with hin | ⟨-, hgood⟩
    · cases hin
    · exact hgood
  · intro h hm
    rcases gather_sj_loop_mem h entry hm with hin | ⟨-, hgood⟩
    · cases hin
    · exact hgood

/-- C2 (witness): one foreign-currency vacancy per language: zero processed
records out of one found, for both sites. -/
theorem claim2_witness :
    get_average_salary [vacancyUSD] "hh" = .ok (0, 0) ∧
    0 ≤ [vacancyUSD].length ∧
    gather_languages_statistics_hh fetchOneUSD fetchOneEur ["Python"] =
      .ok [("Python", ⟨some 1, 0, 0⟩)] ∧
    gather_languages_statistics_sj fetchOneUSD fetchOneEur ["Python"] =
      .ok [("Python", ⟨some 1, 0, 0⟩)] ∧
    (∃ n, (LanguageStatistic.mk (some 1) 0 0).vacancies_found = some n ∧
      (LanguageStatistic.mk (some 1) 0 0).vacancies_processed ≤ n) := by
  refine ⟨rfl, ?_, rfl, rfl, ?_⟩
  · exact (claim2_theorem fetchOneUSD fetchOneEur ["Python"] [vacancyUSD] "hh"
      [("Python", ⟨some 1, 0, 0⟩)] ("Python", ⟨some 1, 0, 0⟩) 0 0).1 rfl
  · exact (claim2_theorem fetchOneUSD fetchOneEur ["Python"] [vacancyUSD] "hh"
      [("Python", ⟨some 1, 0, 0⟩)] ("Python", ⟨some 1, 0, 0⟩) 0 0).2.1 rfl
      (by simp)

/-! ### Claim C9 -/

/-- C9: a language whose fetch returns zero records for a site never appears
as a key of that site's statistics mapping, for both gatherers. -/
theorem claim9_theorem (fetchHH fetchSJ : String → List Vacancy)
    (languages : List String) (res : List (String × LanguageStatistic))
    (language : String) :
    (gather_languages_statistics_hh fetchHH fetchSJ languages = .ok res →
      fetchHH language = [] → language ∉ res.map Prod.fst) ∧
    (gather_languages_statistics_sj fetchHH fetchSJ languages = .ok res →
      fetchSJ language = [] → language ∉ res.map Prod.fst) := by
  constructor
  · intro h he hmem
    rcases List.mem_map.1 hmem with ⟨p, hp, hfst⟩
    rcases gather_hh_loop_mem h p hp with hin | ⟨hne, -⟩
    · cases hin
    · rw [hfst] at hne
      exact hne he
  · intro h he hmem
    rcases List.mem_map.1 hmem with ⟨p, hp, hfst⟩
    rcases gather_sj_loop_mem h p hp with hin | ⟨hne, -⟩
    · cases hin
    · rw [hfst] at hne
      exact hne he

/-- C9 (witness): with a fetcher that returns no records, the statistics
mapping is empty, so the language is not among its keys. -/
theorem claim9_witness :
    fetchNone "Python" = [] ∧
    "Python" ∉ ([] : List (String × LanguageStatistic)).map Prod.fst ∧
    "Python" ∉ ([] : List (String × LanguageStatistic)).map Prod.fst :=
  ⟨rfl,
   (claim9_theorem fetchNone fetchNone ["Python"] [] "Python").1 rfl rfl,
   (claim9_theorem fetchNone fetchNone ["Python"] [] "Python").2 rfl rfl⟩

/-! ### Claim C5 -/

/-- C5: a record whose currency code does not match the site's marker (RUR
for hh, lowercase rub for sj) yields no estimate from the site's predictor,
and inserting it anywhere in the record list changes neither the processed
count nor the salary sum nor any output of get_average_salary. -/
theorem claim5_theorem (v : Vacancy) (l1 l2 : List Vacancy)
    (s : HHSalary) (c : String) :
    (v.salary = some s → s.currency = some c → c ≠ "RUR" →
      predict_rub_salary_hh v = .ok none ∧
      get_average_salary (l1 ++ v :: l2) "hh" =
        get_average_salary (l1 ++ l2) "hh") ∧
    (v.currency = some c → c ≠ "rub" →
      predict_rub_salary_sj v = .ok none ∧
      get_average_salary (l1 ++ v :: l2) "sj" =
        get_average_salary (l1 ++ l2) "sj") := by
  constructor
  · intro hs hc hcne
    have hpred : predict_rub_salary_hh v = .ok none := by
      simp only [predict_rub_salary_hh, hs, hc]
      rw [if_neg hcne]
    have hlp : ∀ st, lookupPredict "hh" st v = .ok (some none) := by
      intro st
      rw [lookupPredict_hh, hpred]
      rfl
    exact ⟨hpred, avg_skip (Or.inl rfl) hlp rfl l1 l2⟩
  · intro hc hcne
    have hpred : predict_rub_salary_sj v = .ok none := by
      simp only [predict_rub_salary_sj, hc]
      rw [if_neg hcne]
    have hlp : ∀ st, lookupPredict "sj" st v = .ok (some none) := by
      intro st
      rw [lookupPredict_sj, hpred]
      rfl
    exact ⟨hpred, avg_skip (Or.inr rfl) hlp rfl l1 l2⟩

/-- C5 (witness): a dollar vacancy is invisible to the hh aggregation and a
euro vacancy to the sj aggregation. -/
theorem claim5_witness :
    (predict_rub_salary_hh vacancyUSD = .ok none ∧
      get_average_salary [vacancyRUR, vacancyUSD] "hh" =
        get_average_salary [vacancyRUR] "hh") ∧
    (predict_rub_salary_sj vacancyEur = .ok none ∧
      get_average_salary [vacancyRub, vacancyEur] "sj" =
        get_average_salary [vacancyRub] "sj") :=
  ⟨(claim5_theorem vacancyUSD [vacancyRUR] []
      ⟨some "USD", some 100, some 200⟩ "USD").1 rfl rfl (by decide),
   (claim5_theorem vacancyEur [vacancyRub] []
      ⟨some "USD", some 100, some 200⟩ "eur").2 rfl (by decide)⟩

/-! ### Claim C6 -/

/-- C6 (counterexample): the claim says records with a missing salary
sub-structure are treated as having no estimate and are silently excluded;
but on a record with no salary sub-structure the HH predictor raises KeyError
(and likewise the SJ predictor on a record with no currency key), and the
error propagates out of get_average_salary instead of the record being
skipped. -/
theorem claim6_counterexample :
    predict_rub_salary_hh vacancyEmpty = .error .keyError ∧
    get_average_salary [vacancyEmpty] "hh" = .error .keyError ∧
    predict_rub_salary_sj vacancyEmpty = .error .keyError ∧
    get_average_salary [vacancyEmpty] "sj" = .error .keyError :=
  ⟨rfl, rfl, rfl, rfl⟩

/-- C6 (amended): a record whose salary bound fields are absent — but whose
salary sub-structure and currency key are present — yields no estimate and is
silently excluded from aggregation; a record with no salary sub-structure
(hh) or no currency key (sj), however, raises a KeyError that propagates out
of get_average_salary. -/
theorem claim6_theorem (v : Vacancy) (s : HHSalary) (c : String)
    (l1 l2 : List Vacancy) :
    (v.salary = some s → s.currency = some c → s.fromField = none →
      s.toField = none →
      predict_rub_salary_hh v = .ok none ∧
      get_average_salary (l1 ++ v :: l2) "hh" =
        get_average_salary (l1 ++ l2) "hh") ∧
    (v.currency = some c → v.payment_from = none → v.payment_to = none →
      predict_rub_salary_sj v = .ok none ∧
      get_average_salary (l1 ++ v :: l2) "sj" =
        get_average_salary (l1 ++ l2) "sj") ∧
    (v.salary = none →
      predict_rub_salary_hh v = .error .keyError ∧
      get_average_salary (v :: l2) "hh" = .error .keyError) ∧
    (v.currency = none →
      predict_rub_salary_sj v = .error .keyError ∧
      get_average_salary (v :: l2) "sj" = .error .keyError) := by
  refine ⟨?_, ?_, ?_, ?_⟩
  · intro hs hc hf ht
    have hpred : predict_rub_salary_hh v = .ok none := by
      simp only [predict_rub_salary_hh, hs, hc, hf, ht]
      by_cases hR : c = "RUR"
      · rw [if_pos hR]
        rfl
      · rw [if_neg hR]
    have hlp : ∀ st, lookupPredict "hh" st v = .ok (some none) := by
      intro st
      rw [lookupPredict_hh, hpred]
      rfl
    exact ⟨hpred, avg_skip (Or.inl rfl) hlp rfl l1 l2⟩
  · intro hc hf ht
    have hpred : predict_rub_salary_sj v = .ok none := by
      simp only [predict_rub_salary_sj, hc, hf, ht]
      by_cases hR : c = "rub"
      · rw [if_pos hR]
        rfl
      · rw [if_neg hR]
    have hlp : ∀ st, lookupPredict "sj" st v = .ok (some none) := by
      intro st
      rw [lookupPredict_sj, hpred]
      rfl
    exact ⟨hpred, avg_skip (Or.inr rfl) hlp rfl l1 l2⟩
  · intro hs
    have hpred : predict_rub_salary_hh v = .error .keyError := by
      simp only [predict_rub_salary_hh, hs]
    have hstep : avgStep "hh" avgInit v = .error .keyError := by
      unfold avgStep
      rw [lookupPredict_hh, hpred]
      rfl
    refine ⟨hpred, ?_⟩
    unfold get_average_salary
    rw [avgLoop_cons, hstep]
  · intro hc
    have hpred : predict_rub_salary_sj v = .error .keyError := by
      simp only [predict_rub_salary_sj, hc]
    have hstep : avgStep "sj" avgInit v = .error .keyError := by
      unfold avgStep
      rw [lookupPredict_sj, hpred]
      rfl
    refine ⟨hpred, ?_⟩
    unfold get_average_salary
    rw [avgLoop_cons, hstep]

/-- C6 (witness): a RUR record with both bounds absent is skipped; a record
with no salary sub-structure or currency key raises. -/
theorem claim6_witness :
    (predict_rub_salary_hh vacancyNoBounds = .ok none ∧
      get_average_salary [vacancyRUR, vacancyNoBounds] "hh" =
        get_average_salary [vacancyRUR] "hh") ∧
    (predict_rub_salary_sj vacancyNoBoundsSJ = .ok none ∧
      get_average_salary [vacancyRub, vacancyNoBoundsSJ] "sj" =
        get_average_salary [vacancyRub] "sj") ∧
    (predict_rub_salary_hh vacancyEmpty = .error .keyError ∧
      get_average_salary [vacancyEmpty] "hh" = .error .keyError) :=
  ⟨(claim6_theorem vacancyNoBounds ⟨some "RUR", none, none⟩ "RUR"
      [vacancyRUR] []).1 rfl rfl rfl rfl,
   (claim6_theorem vacancyNoBoundsSJ ⟨some "RUR", none, none⟩ "rub"
      [vacancyRub] []).2.1 rfl rfl rfl,
   (claim6_theorem vacancyEmpty ⟨some "RUR", none, none⟩ "x" [] []).2.2.1 rfl⟩

/-! ### Claim C4 -/

/-- C4: when the HH API reports N pages on every consulted page and the SJ
API returns N nonempty pages followed by an empty one, both fetchers
terminate (within any sufficient fuel) and return exactly the concatenation
of the N pages' records, in API order, with no reordering. -/
theorem claim4_theorem (N fuel : ℕ) (hresp : ℕ → HHPage) (sresp : ℕ → SJPage)
    (hhh : ∀ p, p ≤ N → (hresp p).ok = true ∧ (hresp p).pages = N)
    (hsj : ∀ p, p < N → (sresp p).ok = true ∧ (sresp p).objects ≠ [])
    (hsjN : (sresp N).ok = true) (hsjNe : (sresp N).objects = [])
    (hfuel : N + 1 ≤ fuel) :
    get_hh_vacancies hresp fuel =
      some (.ok (((List.range N).map fun p => (hresp p).items).flatten)) ∧
    get_sj_vacancies sresp fuel =
      some (.ok (((List.range N).map fun p => (sresp p).objects).flatten)) := by
  constructor
  · unfold get_hh_vacancies
    rw [hh_loop_ok hresp N hhh fuel 0 [] (Nat.zero_le N) (by omega)]
    rw [List.range_eq_range']
    simp
  · unfold get_sj_vacancies
    rw [sj_loop_ok sresp N hsj hsjN hsjNe fuel 0 [] (Nat.zero_le N) (by omega)]
    rw [List.range_eq_range']
    simp

/-- C4 (witness): two-page mock APIs produce exactly the two pages' records
in order. -/
theorem claim4_witness :
    get_hh_vacancies hhRespTwo 3 = some (.ok [vacancyRUR, vacancyRUR]) ∧
    get_sj_vacancies sjRespTwo 3 = some (.ok [vacancyRub, vacancyRub]) := by
  have h := claim4_theorem 2 3 hhRespTwo sjRespTwo
    (fun p _ => ⟨rfl, rfl⟩) (fun p hp => by simp [sjRespTwo, hp]) rfl rfl
    (by omega)
  exact ⟨h.1.trans (by rfl), h.2.trans (by rfl)⟩

/-! ### Claim C7 -/

/-- C7: a non-success HTTP status on any page aborts the fetch at that page
for both fetchers: the result is a fetch error carrying no partial record
list, and no page is requested twice. -/
theorem claim7_theorem (k fuel : ℕ) (hresp : ℕ → HHPage) (sresp : ℕ → SJPage)
    (hhh : ∀ p, p < k → (hresp p).ok = true ∧ p < (hresp p).pages)
    (hhbad : (hresp k).ok = false)
    (hsj : ∀ p, p < k → (sresp p).ok = true ∧ (sresp p).objects ≠ [])
    (hsbad : (sresp k).ok = false)
    (hfuel : k + 1 ≤ fuel) :
    get_hh_vacancies hresp fuel = some (.error .httpError) ∧
    get_sj_vacancies sresp fuel = some (.error .httpError) :=
  ⟨hh_loop_err hresp k hhh hhbad fuel 0 [] (Nat.zero_le k) (by omega),
   sj_loop_err sresp k hsj hsbad fuel 0 [] (Nat.zero_le k) (by omega)⟩

/-- C7 (witness): mock APIs whose second page fails with a bad status abort
with an HTTP error and return no records. -/
theorem claim7_witness :
    get_hh_vacancies hhRespBad 2 = some (.error .httpError) ∧
    get_sj_vacancies sjRespBad 2 = some (.error .httpError) :=
  claim7_theorem 1 2 hhRespBad sjRespBad
    (fun p hp => by
      have h0 : p = 0 := by omega
      subst h0
      exact ⟨rfl, by decide⟩)
    rfl
    (fun p hp => by
      have h0 : p = 0 := by omega
      subst h0
      exact ⟨rfl, by simp [sjRespBad]⟩)
    rfl (by omega)

end HHParser
